import Mathlib

/-!
Verification of the bare-metal provisioning pipeline (Airflow + Terraform POC).

Shallow embedding of the two source components the claims are about:

* the workflow DAG (airflow/dags/terraform_dag.py): the prepare stage
  (prepare_terraform_vars), the health-check retry loop
  (check_instance_health) and the notification stage (invoke_webhooks);
* the API facade (api/main.py, api/models.py, api/services/airflow.py):
  the request/response models, the DAG-trigger configuration and the
  status-projection handler.

Conventions of the embedding:

* Python dict keys that may be absent are Option fields; a dict value that
  Python tests for truthiness is modelled by the corresponding emptiness
  test (None / "" / [] / {} are falsy).
* Side effects are made explicit: Airflow Variable writes become a returned
  list of VariableWrite values, HTTP POSTs become a returned list of issued
  calls together with an oracle giving each call's status code, the EC2
  status API becomes an oracle from (attempt, instance id) to a reported
  status, and time.sleep becomes a recorded list of delays.
* The Python identifier instance_name_prefix is rendered here as
  instance_name_pref (same meaning; the JSON key strings keep the original
  spelling).
-/

/-! ## Data model: webhook configuration and request payloads -/

/-- Webhook configuration dict (keys url, username, token) as consumed by
invoke_webhooks.  A missing or empty (falsy) webhook_config dict is
modelled as Option.none at the use sites. -/
structure WebhookConfig where
  url : String
  username : String
  token : String
deriving DecidableEq

/-- Provider-specific configuration dict (request_data['provider_config'])
as read by the AWS branch of prepare_terraform_vars; each field is an
optional key of the dict. -/
structure ProviderConfig where
  region : Option String
  instance_type : Option String
  ami_id : Option String
  subnet_id : Option String
  security_group_ids : Option (List String)
  tags : Option (List (String × String))
deriving DecidableEq

/-- The dag_run.conf dict received by prepare_terraform_vars.  Each field
models an optional key of the JSON configuration. -/
structure RequestData where
  cloud_provider : Option String
  provider_config : Option ProviderConfig
  instance_name_pref : Option String
  count : Option Nat
  request_id : Option String
  webhook_config : Option WebhookConfig
deriving DecidableEq

/-- The tf_vars dict built by the AWS branch of prepare_terraform_vars
(terraform_dag.py lines 77-86).  instance_type / ami_id / subnet_id keep
the Option coming from provider_config.get, which may be None. -/
structure AwsVariables where
  aws_region : String
  instance_name_pref : String
  instance_count : Nat
  instance_type : Option String
  ami_id : Option String
  subnet_id : Option String
  security_group_ids : List String
  tags : List (String × String)
deriving DecidableEq

/-! ## Prepare stage (prepare_terraform_vars) -/

/-- The ValueError raised by prepare_terraform_vars, split by message. -/
inductive PrepareError
  | missingFields (fields : List String)
  | missingAwsFields (fields : List String)
  | unsupportedProvider (provider : String)
deriving DecidableEq

/-- A write into Airflow's durable Variable store performed by the prepare
stage (Variable.set calls at terraform_dag.py lines 101 and 107). -/
inductive VariableWrite
  | terraformVars (key : String) (vars : AwsVariables)
  | webhookCfg (key : String) (cfg : WebhookConfig)
deriving DecidableEq

/-- The return dict of prepare_terraform_vars (terraform_dag.py
lines 116-123). -/
structure PrepareResult where
  cloud_provider : String
  request_id : String
  base_dir : String
  terraform_dir : String
  tf_vars : AwsVariables
  webhook_config : Option WebhookConfig
deriving DecidableEq

/-- Python truthiness of an optional string: absent or empty is falsy. -/
def optStrFalsy : Option String → Bool
  | none => true
  | some s => s = ""

/-- The top-level required-field check of prepare_terraform_vars
(lines 55-58): fields among cloud_provider, provider_config absent from
the request dict, in source order. -/
def missingTopFields (rd : RequestData) : List String :=
  (if rd.cloud_provider.isNone then ["cloud_provider"] else []) ++
    (if rd.provider_config.isNone then ["provider_config"] else [])

/-- The AWS tf_vars dict derived at lines 77-86, with the source's
defaults for absent keys. -/
def deriveAwsVariables (rd : RequestData) (pc : ProviderConfig) : AwsVariables :=
  { aws_region := pc.region.getD "us-east-2"
    instance_name_pref := rd.instance_name_pref.getD "bare-metal"
    instance_count := rd.count.getD 1
    instance_type := pc.instance_type
    ami_id := pc.ami_id
    subnet_id := pc.subnet_id
    security_group_ids := pc.security_group_ids.getD []
    tags := pc.tags.getD [] }

/-- aws_required (line 89), in source order. -/
def aws_required : List String := ["instance_type", "ami_id", "subnet_id", "security_group_ids"]

/-- Python's falsiness test (not tf_vars.get(field)) on the derived
tf_vars dict, for the keys the required-field check inspects. -/
def awsVarFalsy (v : AwsVariables) : String → Bool
  | "instance_type" => optStrFalsy v.instance_type
  | "ami_id" => optStrFalsy v.ami_id
  | "subnet_id" => optStrFalsy v.subnet_id
  | "security_group_ids" => v.security_group_ids.isEmpty
  | _ => true

/-- prepare_terraform_vars (terraform_dag.py lines 45-132).  freshId stands
for the str(uuid.uuid4()) generated at line 99 when the request carries no
request_id.  The returned list records the Variable.set writes, in order. -/
def prepare_terraform_vars (rd : RequestData) (freshId : String) :
    Except PrepareError (PrepareResult × List VariableWrite) :=
  match rd.cloud_provider, rd.provider_config with
  | some cp, some pc =>
    if cp = "aws" then
      let tf_vars := deriveAwsVariables rd pc
      let missing_aws := aws_required.filter fun f => awsVarFalsy tf_vars f
      if missing_aws.isEmpty then
        let request_id := rd.request_id.getD freshId
        let writes :=
          [VariableWrite.terraformVars ("terraform_vars_" ++ request_id) tf_vars] ++
            (match rd.webhook_config with
             | some c => [VariableWrite.webhookCfg ("webhook_config_" ++ request_id) c]
             | none => [])
        .ok ({ cloud_provider := cp
               request_id := request_id
               base_dir := "/opt/airflow/terraform/" ++ cp
               terraform_dir := "/opt/airflow/terraform/" ++ cp
               tf_vars := tf_vars
               webhook_config := rd.webhook_config }, writes)
      else .error (.missingAwsFields missing_aws)
    else .error (.unsupportedProvider cp)
  | _, _ => .error (.missingFields (missingTopFields rd))

/-! ## Health-check stage (check_instance_health) -/

/-- What the EC2 describe_instance_status call reports for one instance:
either an empty InstanceStatuses list (line 254) or a status record with
the instance state name and the two secondary status-check results. -/
inductive OracleResult
  | notFound
  | status (state : String) (systemStatus : String) (instanceStatus : String)
deriving DecidableEq

/-- How the per-instance branch at lines 254-268 classifies one oracle
report.  A report that is neither pending nor running-with-both-checks-ok
raises, and the raise is caught at line 270, which only clears all_healthy
and continues: that is the bad case. -/
inductive InstClass
  | pendingI
  | healthyI
  | badI
deriving DecidableEq

/-- Classification of one oracle report per lines 254-268. -/
def classifyStatus : OracleResult → InstClass
  | .notFound => .badI
  | .status st sys inst =>
    if st = "pending" then .pendingI
    else if st = "running" ∧ sys = "ok" ∧ inst = "ok" then .healthyI
    else .badI

/-- One attempt of the inner for-loop (lines 247-273): returns the
initializing_instances list (in iteration order) and the final all_healthy
flag. -/
def attemptCheck (oracle : String → OracleResult) : List String → List String × Bool
  | [] => ([], true)
  | id :: rest =>
    let t := attemptCheck oracle rest
    match classifyStatus (oracle id) with
    | .pendingI => (id :: t.1, false)
    | .healthyI => t
    | .badI => (t.1, false)

/-- Outcome of the health-check loop: the healthy return at line 278, the
still-initializing raise at line 289 (carrying the final pending list),
the generic raise at line 291, or the post-loop raise at line 294 (never
reached when the attempt budget is positive). -/
inductive HealthResult
  | healthy (instance_ids : List String)
  | stillInitializing (pending : List String)
  | notHealthy
  | loopExhausted
deriving DecidableEq

/-- The retry loop of check_instance_health (lines 246-294).  fuel is the
number of loop iterations left (initially max_retries), attempt the 0-based
Python loop index; the oracle is indexed by attempt then instance id.  The
second component records the delays passed to time.sleep, in order. -/
def healthAux (oracle : Nat → String → OracleResult) (ids : List String)
    (base_delay max_delay : Nat) : Nat → Nat → HealthResult × List Nat
  | _, 0 => (.loopExhausted, [])
  | attempt, fuel + 1 =>
    let r := attemptCheck (oracle attempt) ids
    if r.2 then (.healthy ids, [])
    else if 0 < fuel then
      let delay := min (base_delay * 2 ^ attempt) max_delay
      let next := healthAux oracle ids base_delay max_delay (attempt + 1) fuel
      (next.1, delay :: next.2)
    else if r.1.isEmpty then (.notHealthy, [])
    else (.stillInitializing r.1, [])

/-- check_instance_health's loop with the source constants max_retries = 10,
base_delay = 30, max_delay = 300 (lines 242-244). -/
def check_instance_health (oracle : Nat → String → OracleResult) (ids : List String) :
    HealthResult × List Nat :=
  healthAux oracle ids 30 300 0 10

/-! ## Notification stage (invoke_webhooks) -/

/-- Payload of the first webhook POST (lines 349-353). -/
structure FirstWebhookData where
  hostname : String
  ip : String
  message : String
deriving DecidableEq

/-- Payload of the second webhook POST (lines 370-377). -/
structure SecondWebhookData where
  username : String
  ip : String
  message : String
  rackId : Nat
  rackPosition : Nat
  token : String
deriving DecidableEq

/-- A JSON body handed to requests.post by invoke_webhooks. -/
inductive WebhookPayload
  | first (d : FirstWebhookData)
  | second (d : SecondWebhookData)
deriving DecidableEq

/-- The literal first payload (lines 349-353). -/
def firstWebhookData (private_ip : String) : FirstWebhookData :=
  { hostname := "s2r1nodexyz", ip := private_ip, message := "Update Hosts" }

/-- The literal second payload (lines 370-377). -/
def secondWebhookData (cfg : WebhookConfig) (private_ip : String) : SecondWebhookData :=
  { username := cfg.username, ip := private_ip, message := "AWS"
    rackId := 1, rackPosition := 117, token := cfg.token }

/-- requests' Response.raise_for_status: raises exactly for status codes
in the HTTP error range 400..599. -/
def raiseForStatus (s : Nat) : Bool := decide (400 ≤ s) && decide (s < 600)

/-- Outcome of invoke_webhooks: the skip return at line 330, the success
return at line 389, or a raise_for_status failure carrying the offending
status code. -/
inductive WebhookOutcome
  | skipped (message : String)
  | succeeded (private_ip : String)
  | httpFailure (status : Nat)
deriving DecidableEq

/-- invoke_webhooks (terraform_dag.py lines 302-395).  handoff is the
webhook_config of the prepare stage's XCom result (falsy dict as none),
store the result of the Variable.get fallback at lines 318-324 (none when
the key is absent or the lookup raised), post the HTTP oracle giving each
POST's final status code.  The second component lists the POSTs actually
issued, in order, each with its target URL. -/
def invoke_webhooks (handoff store : Option WebhookConfig) (private_ip : String)
    (post : WebhookPayload → Nat) : WebhookOutcome × List (String × WebhookPayload) :=
  let webhook_config := match handoff with
    | some c => some c
    | none => store
  match webhook_config with
  | none => (.skipped "No webhook configuration provided", [])
  | some cfg =>
    let p1 := WebhookPayload.first (firstWebhookData private_ip)
    let s1 := post p1
    if raiseForStatus s1 then (.httpFailure s1, [(cfg.url, p1)])
    else
      let p2 := WebhookPayload.second (secondWebhookData cfg private_ip)
      let s2 := post p2
      if raiseForStatus s2 then (.httpFailure s2, [(cfg.url, p1), (cfg.url, p2)])
      else (.succeeded private_ip, [(cfg.url, p1), (cfg.url, p2)])

/-! ## API facade (api/models.py, api/main.py, api/services/airflow.py) -/

/-- pydantic AWSInstanceConfig (models.py lines 10-20): every field but
tags is required, so a validated request always carries them. -/
structure AWSInstanceConfig where
  region : String
  instance_type : String
  tags : List (String × String)
  subnet_id : String
  security_group_ids : List String
  ami_id : String
deriving DecidableEq

/-- pydantic BareMetalRequest (models.py lines 30-34), for the AWS
provider branch the handler admits. -/
structure BareMetalRequest where
  cloud_provider : String
  provider_config : AWSInstanceConfig
  instance_name_pref : String
  count : Nat
deriving DecidableEq

/-- Serialization of a validated AWSInstanceConfig back into the
provider_config dict the DAG reads: every key present. -/
def AWSInstanceConfig.toProviderConfig (c : AWSInstanceConfig) : ProviderConfig :=
  { region := some c.region
    instance_type := some c.instance_type
    ami_id := some c.ami_id
    subnet_id := some c.subnet_id
    security_group_ids := some c.security_group_ids
    tags := some c.tags }

/-- The keys of the dag_conf dict built by AirflowService.trigger_dag
(services/airflow.py lines 25-30). -/
def dag_conf_keys : List String :=
  ["cloud_provider", "provider_config", "instance_name_prefix", "count"]

/-- The dag_conf dict AirflowService.trigger_dag hands to the workflow
engine, as the RequestData the DAG's prepare stage will read: only the
four keys of dag_conf_keys are set, so request_id and webhook_config are
absent. -/
def trigger_dag_conf (r : BareMetalRequest) : RequestData :=
  { cloud_provider := some r.cloud_provider
    provider_config := some r.provider_config.toProviderConfig
    instance_name_pref := some r.instance_name_pref
    count := some r.count
    request_id := none
    webhook_config := none }

/-- ProvisioningStatus enum (models.py lines 36-40). -/
inductive ProvisioningStatus
  | pendingS
  | in_progress
  | completed
  | failed
deriving DecidableEq

/-- InstanceDetails model (models.py lines 42-45). -/
structure InstanceDetails where
  instance_id : String
  private_ip : String
  public_ip : Option String
deriving DecidableEq

/-- A value passed as a keyword argument to the ProvisioningResponse
constructor: a string, a status, a typed instance list, an opaque JSON
payload, or Python None. -/
inductive RespVal
  | vStr (s : String)
  | vStatus (s : ProvisioningStatus)
  | vInstances (l : List InstanceDetails)
  | vJson (s : String)
  | vNone
deriving DecidableEq

/-- The declared fields of ProvisioningResponse (models.py lines 47-51). -/
def provisioningResponseFields : List String :=
  ["request_id", "status", "message", "instances"]

/-- ProvisioningResponse model (models.py lines 47-51); instances defaults
to None. -/
structure ProvisioningResponse where
  request_id : String
  status : ProvisioningStatus
  message : String
  instances : Option (List InstanceDetails)
deriving DecidableEq

/-- Keyword lookup in a pydantic constructor call. -/
def lookupKw (kwargs : List (String × RespVal)) (k : String) : Option RespVal :=
  (kwargs.find? fun p => p.1 == k).map Prod.snd

/-- pydantic construction of a ProvisioningResponse from keyword
arguments: each declared field is read by its own name, absent fields take
their defaults (instances defaults to None), and unknown keywords are
ignored (pydantic's default extra behaviour).  The handlers only ever pass
well-typed values for the declared fields. -/
def ProvisioningResponse.init (kwargs : List (String × RespVal)) : ProvisioningResponse :=
  { request_id := match lookupKw kwargs "request_id" with | some (.vStr s) => s | _ => ""
    status := match lookupKw kwargs "status" with | some (.vStatus s) => s | _ => .pendingS
    message := match lookupKw kwargs "message" with | some (.vStr s) => s | _ => ""
    instances := match lookupKw kwargs "instances" with | some (.vInstances l) => some l | _ => none }

/-- The per-request record held in the in-memory requests dict of
api/main.py, restricted to the fields the status handler reads and
updates. -/
structure StoredRequest where
  status : ProvisioningStatus
  message : String
  instance_details : Option String
deriving DecidableEq

/-- The runner's DAG-run document as read by get_provisioning_status:
its state string and the optional outputs key. -/
structure DagRunStatus where
  state : String
  outputs : Option String
deriving DecidableEq

/-- The stored-value serialization used for the instance_details keyword
argument (Python None when absent). -/
def respDetails : Option String → RespVal
  | some s => .vJson s
  | none => .vNone

/-- The update get_provisioning_status performs on the stored request
record (main.py lines 74-93): the state-to-status mapping, and the
except-branch that only rewrites the message when the runner query
raised. -/
def updateFromDagRun (data : StoredRequest) (q : Except String DagRunStatus) : StoredRequest :=
  match q with
  | .error e => { data with message := "Error checking status: " ++ e }
  | .ok st =>
    let d :=
      if st.state = "success" then
        { data with status := .completed
                    message := "Instance provisioning completed successfully" }
      else if st.state = "failed" then
        { data with status := .failed, message := "Instance provisioning failed" }
      else if st.state = "running" ∨ st.state = "queued" then
        { data with status := .in_progress, message := "Instance provisioning in progress" }
      else data
    match st.outputs with
    | some o => { d with instance_details := some o }
    | none => d

/-- GET /status/{request_id} for a known request (main.py lines 67-100):
updates the stored record from the runner query, then builds the response
with the instance_details keyword argument of line 99. -/
def get_provisioning_status (stored : StoredRequest) (request_id : String)
    (q : Except String DagRunStatus) : StoredRequest × ProvisioningResponse :=
  let d := updateFromDagRun stored q
  (d, ProvisioningResponse.init
    [("request_id", .vStr request_id), ("status", .vStatus d.status),
     ("message", .vStr d.message), ("instance_details", respDetails d.instance_details)])

/-- The response POST /provision builds on success (main.py lines 58-63);
the instance_details keyword carries the dag_run_id payload. -/
def create_provisioning_request_response (request_id dag_run_id : String) : ProvisioningResponse :=
  ProvisioningResponse.init
    [("request_id", .vStr request_id), ("status", .vStatus .in_progress),
     ("message", .vStr "Request received and DAG triggered"),
     ("instance_details", .vJson ("dag_run_id: " ++ dag_run_id))]

/-- GET /requests (main.py lines 102-112). -/
def list_provisioning_requests (reqs : List (String × StoredRequest)) : List ProvisioningResponse :=
  reqs.map fun p => ProvisioningResponse.init
    [("request_id", .vStr p.1), ("status", .vStatus p.2.status),
     ("message", .vStr p.2.message), ("instance_details", respDetails p.2.instance_details)]

/-! ## Spec-side definitions for refinement comparisons -/

/-- Spec-side characterization for the amended C2: the required AWS fields
whose supplied value is absent or empty, read directly off the request's
provider_config, in the source's field order. -/
def omittedOrEmptyAwsFields (pc : ProviderConfig) : List String :=
  (if optStrFalsy pc.instance_type then ["instance_type"] else []) ++
    (if optStrFalsy pc.ami_id then ["ami_id"] else []) ++
      (if optStrFalsy pc.subnet_id then ["subnet_id"] else []) ++
        (if (pc.security_group_ids.getD []).isEmpty then ["security_group_ids"] else [])

/-- Spec-side success (2xx) test on an HTTP status code, as the claims use
the term. -/
def is2xx (s : Nat) : Bool := decide (200 ≤ s) && decide (s < 300)

/-- The scripted oracle of the C3 scenario, 0-based: every instance is
pending on attempts 0..k-2 and running with both checks ok from attempt
k-1 on. -/
def scriptedOracle (k : Nat) : Nat → String → OracleResult :=
  fun attempt _ =>
    if attempt + 1 < k then .status "pending" "" ""
    else .status "running" "ok" "ok"

/-! ## Helper lemmas about one health-check attempt -/

lemma classifyStatus_pending (sys inst : String) :
    classifyStatus (.status "pending" sys inst) = .pendingI := rfl

lemma attemptCheck_const_pending (l : List String) :
    attemptCheck (fun _ => OracleResult.status "pending" "" "") l = (l, l.isEmpty) := by
  induction l with
  | nil => rfl
  | cons a t ih => simp [attemptCheck, ih, classifyStatus]

lemma attemptCheck_const_healthy (l : List String) :
    attemptCheck (fun _ => OracleResult.status "running" "ok" "ok") l = ([], true) := by
  induction l with
  | nil => rfl
  | cons a t ih => simp [attemptCheck, ih, classifyStatus]

lemma attemptCheck_const_terminated (l : List String) :
    attemptCheck (fun _ => OracleResult.status "terminated" "" "") l = ([], l.isEmpty) := by
  induction l with
  | nil => rfl
  | cons a t ih => simp [attemptCheck, ih, classifyStatus]

lemma attemptCheck_snd_false_of_fst_ne_nil (o : String → OracleResult) (l : List String)
    (h : (attemptCheck o l).1 ≠ []) : (attemptCheck o l).2 = false := by
  induction l with
  | nil => simp [attemptCheck] at h
  | cons a t ih =>
    simp only [attemptCheck] at h ⊢
    revert h
    cases hc : classifyStatus (o a) <;> intro h <;> simp at h ⊢
    exact ih h

lemma mem_attemptCheck_of_pending (o : String → OracleResult) (l : List String) (id : String)
    (hmem : id ∈ l) (hp : classifyStatus (o id) = .pendingI) :
    id ∈ (attemptCheck o l).1 := by
  induction l with
  | nil => cases hmem
  | cons a t ih =>
    rcases List.mem_cons.mp hmem with h | h
    · subst h
      simp [attemptCheck, hp]
    · have hmt := ih h
      simp only [attemptCheck]
      set c := classifyStatus (o a) with hc
      cases c
      · simp only
        exact List.mem_cons_of_mem a hmt
      · simpa using hmt
      · simpa using hmt

/-! ## Helper lemmas about the health-check retry loop -/

lemma healthAux_succeeds (oracle : Nat → String → OracleResult) (ids : List String) (bd md : Nat) :
    ∀ fuel attempt K, attempt ≤ K → K < attempt + fuel →
      (∀ a, attempt ≤ a → a < K → attemptCheck (oracle a) ids = (ids, false)) →
      (attemptCheck (oracle K) ids).2 = true →
      healthAux oracle ids bd md attempt fuel =
        (.healthy ids, (List.range' attempt (K - attempt)).map fun a => min (bd * 2 ^ a) md) := by
  intro fuel
  induction fuel with
  | zero =>
    intro attempt K h1 h2 _ _
    omega
  | succ f ih =>
    intro attempt K h1 h2 hpend hrun
    rcases eq_or_lt_of_le h1 with heq | hlt
    · subst heq
      simp [healthAux, hrun, Nat.sub_self]
    · have hcur : attemptCheck (oracle attempt) ids = (ids, false) := hpend attempt le_rfl hlt
      have hfpos : 0 < f := by omega
      have hnext := ih (attempt + 1) K (by omega) (by omega)
        (fun a ha1 ha2 => hpend a (by omega) ha2) hrun
      have hK : K - attempt = (K - (attempt + 1)) + 1 := by omega
      simp only [healthAux, hcur]
      simp only [hfpos, if_true, if_pos]
      rw [hnext, hK, List.range'_succ]
      simp

lemma healthAux_stillPending (oracle : Nat → String → OracleResult) (ids : List String)
    (bd md : Nat) :
    ∀ fuel attempt, 0 < fuel →
      (∀ a, attempt ≤ a → a < attempt + fuel → (attemptCheck (oracle a) ids).1 ≠ []) →
      (healthAux oracle ids bd md attempt fuel).1 =
        .stillInitializing ((attemptCheck (oracle (attempt + fuel - 1)) ids).1) := by
  intro fuel
  induction fuel with
  | zero =>
    intro attempt h
    omega
  | succ f ih =>
    intro attempt _ hp
    have hcur : (attemptCheck (oracle attempt) ids).1 ≠ [] :=
      hp attempt le_rfl (by omega)
    have hsnd := attemptCheck_snd_false_of_fst_ne_nil (oracle attempt) ids hcur
    by_cases hf : 0 < f
    · have hnext := ih (attempt + 1) hf (fun a ha1 ha2 => hp a (by omega) (by omega))
      have hidx : attempt + 1 + f - 1 = attempt + (f + 1) - 1 := by omega
      simp only [healthAux, hsnd]
      simp only [hf, if_true, if_pos]
      rw [← hidx]
      simpa using hnext
    · have hf0 : f = 0 := by omega
      subst hf0
      simp [healthAux, hsnd, hcur]

lemma healthAux_allBad (oracle : Nat → String → OracleResult) (ids : List String)
    (bd md : Nat) (hbad : ∀ a, attemptCheck (oracle a) ids = ([], false)) :
    ∀ fuel attempt, 0 < fuel →
      healthAux oracle ids bd md attempt fuel =
        (.notHealthy, (List.range' attempt (fuel - 1)).map fun a => min (bd * 2 ^ a) md) := by
  intro fuel
  induction fuel with
  | zero =>
    intro attempt h
    omega
  | succ f ih =>
    intro attempt _
    by_cases hf : 0 < f
    · have hnext := ih (attempt + 1) hf
      have hK : f + 1 - 1 = (f - 1) + 1 := by omega
      simp only [healthAux, hbad attempt]
      simp only [hf, if_true, if_pos]
      rw [hnext, hK, List.range'_succ]
      simp
    · have hf0 : f = 0 := by omega
      subst hf0
      simp [healthAux, hbad attempt]

/-! ## Claims about the health-check stage -/

/-- Claim C3: for every k with 1 le k le 10, an oracle reporting every
instance pending on attempts 1..k-1 and running with both secondary status
checks ok on attempt k makes check_instance_health succeed at attempt k,
sleeping exactly the delays 30*2^0, 30*2^1, ..., 30*2^(k-2), each capped
at 300 seconds. -/
theorem claim_C3_health_backoff_success (k : Nat) (ids : List String)
    (h1 : 1 ≤ k) (h2 : k ≤ 10) (hne : ids ≠ []) :
    check_instance_health (scriptedOracle k) ids =
      (.healthy ids, (List.range (k - 1)).map fun i => min (30 * 2 ^ i) 300) := by
  have hpend : ∀ a, 0 ≤ a → a < k - 1 →
      attemptCheck (scriptedOracle k a) ids = (ids, false) := by
    intro a _ ha
    have hfun : scriptedOracle k a = fun _ => OracleResult.status "pending" "" "" := by
      funext s
      simp only [scriptedOracle]
      rw [if_pos (by omega)]
    rw [hfun, attemptCheck_const_pending]
    simp [hne]
  have hrun : (attemptCheck (scriptedOracle k (k - 1)) ids).2 = true := by
    have hfun : scriptedOracle k (k - 1) = fun _ => OracleResult.status "running" "ok" "ok" := by
      funext s
      simp only [scriptedOracle]
      rw [if_neg (by omega)]
    rw [hfun, attemptCheck_const_healthy]
  have hmain := healthAux_succeeds (scriptedOracle k) ids 30 300 10 0 (k - 1)
    (by omega) (by omega) hpend hrun
  simpa [check_instance_health, List.range_eq_range'] using hmain

/-- Witness for C3 at k = 4 with one instance: success at attempt 4 after
sleeping 30, 60 and 120 seconds. -/
theorem claim_C3_health_backoff_success_witness :
    check_instance_health (scriptedOracle 4) ["i-1"] =
      (.healthy ["i-1"], [30, 60, 120]) := by
  have h := claim_C3_health_backoff_success 4 ["i-1"] (by norm_num) (by norm_num) (by simp)
  rw [h]
  rfl

/-- Claim C4: an oracle reporting at least one instance pending on every
one of the 10 attempts makes check_instance_health fail with the
still-initializing timeout error, listing exactly the instances pending at
the final attempt (a nonempty list). -/
theorem claim_C4_health_timeout (oracle : Nat → String → OracleResult) (ids : List String)
    (h : ∀ a, a < 10 → ∃ id ∈ ids, ∃ sys inst,
      oracle a id = OracleResult.status "pending" sys inst) :
    (check_instance_health oracle ids).1 =
        .stillInitializing ((attemptCheck (oracle 9) ids).1) ∧
      (attemptCheck (oracle 9) ids).1 ≠ [] := by
  have hne : ∀ a, a < 10 → (attemptCheck (oracle a) ids).1 ≠ [] := by
    intro a ha
    obtain ⟨id, hmem, sys, inst, hrep⟩ := h a ha
    have hp : classifyStatus (oracle a id) = .pendingI := by
      rw [hrep]
      exact classifyStatus_pending sys inst
    exact List.ne_nil_of_mem (mem_attemptCheck_of_pending (oracle a) ids id hmem hp)
  refine ⟨?_, hne 9 (by norm_num)⟩
  have hmain := healthAux_stillPending oracle ids 30 300 10 0 (by norm_num)
    (fun a _ ha2 => hne a (by omega))
  simpa [check_instance_health] using hmain

/-- Witness for C4: two instances pending on every attempt exhaust the 10
attempts and the timeout error lists both. -/
theorem claim_C4_health_timeout_witness :
    (check_instance_health (fun _ _ => OracleResult.status "pending" "" "") ["i-1", "i-2"]).1 =
        .stillInitializing ["i-1", "i-2"] := by
  have h := claim_C4_health_timeout (fun _ _ => OracleResult.status "pending" "" "")
    ["i-1", "i-2"] (by intro a _; exact ⟨"i-1", by simp, "", "", rfl⟩)
  have h1 := h.1
  rw [h1]
  rfl

/-- Counterexample to C1 as stated: with every instance reported in the
terminal state terminated from the first attempt on, the run does not fail
on that attempt without consuming the remaining backoff attempts: it
sleeps all 9 backoff delays before failing after the maximum attempts. -/
theorem claim_C1_counterexample :
    (check_instance_health (fun _ _ => OracleResult.status "terminated" "" "") ["i-0"]).2.length = 9 ∧
      (check_instance_health (fun _ _ => OracleResult.status "terminated" "" "") ["i-0"]).1 =
        HealthResult.notHealthy := by
  constructor
  · rfl
  · rfl

/-- Claim C1 amended: an instance reported in a terminal or failed state
is not fatal on the attempt that observes it; the exception raised for it
is caught, the attempt is merely marked unhealthy (without joining the
pending set), and the loop keeps retrying with the usual capped
exponential backoff.  If the bad state persists on all 10 attempts and no
instance is pending at the final attempt, the stage fails only then, with
the generic not-healthy error, after sleeping all 9 backoff delays. -/
theorem claim_C1_terminal_state_retried (ids : List String) (hne : ids ≠ []) :
    check_instance_health (fun _ _ => OracleResult.status "terminated" "" "") ids =
      (.notHealthy, (List.range 9).map fun i => min (30 * 2 ^ i) 300) := by
  have hbad : ∀ a : Nat,
      attemptCheck ((fun (_ : Nat) (_ : String) => OracleResult.status "terminated" "" "") a)
        ids = ([], false) := by
    intro a
    show attemptCheck (fun _ => OracleResult.status "terminated" "" "") ids = ([], false)
    rw [attemptCheck_const_terminated]
    simp [hne]
  have hmain := healthAux_allBad (fun _ _ => OracleResult.status "terminated" "" "")
    ids 30 300 hbad 10 0 (by norm_num)
  simpa [check_instance_health, List.range_eq_range'] using hmain

/-- Witness for the amended C1 with one instance. -/
theorem claim_C1_terminal_state_retried_witness :
    check_instance_health (fun _ _ => OracleResult.status "terminated" "" "") ["i-1"] =
      (.notHealthy, [30, 60, 120, 240, 300, 300, 300, 300, 300]) := by
  have h := claim_C1_terminal_state_retried ["i-1"] (by simp)
  rw [h]
  rfl

/-! ## Claims about the notification stage -/

/-- Claim C7: with no webhook configuration in either the prepare stage's
hand-off or the durable variable store, invoke_webhooks is a no-op success
with the distinguishable skipped result and issues no HTTP call at all. -/
theorem claim_C7_webhooks_skip (private_ip : String) (post : WebhookPayload → Nat) :
    invoke_webhooks none none private_ip post =
      (.skipped "No webhook configuration provided", []) := rfl

/-- Counterexample to C8 as stated: a first webhook response with the
non-2xx status 304 does not fail the stage, and the second call is issued
anyway, because raise_for_status only raises on 4xx/5xx. -/
theorem claim_C8_counterexample :
    is2xx 304 = false ∧
      (invoke_webhooks (some { url := "http://wh.example", username := "user1", token := "tok1" })
          none "10.0.0.7" (fun _ => 304)).2.length = 2 ∧
      (invoke_webhooks (some { url := "http://wh.example", username := "user1", token := "tok1" })
          none "10.0.0.7" (fun _ => 304)).1 = .succeeded "10.0.0.7" :=
  ⟨rfl, rfl, rfl⟩

/-- Claim C8 amended: with a webhook configuration present, the calls
issued are exactly the first host-registration POST alone when its status
is in raise_for_status's error range 400..599 — the stage then fails with
that status before the second call is attempted — and the first POST
followed by the asset-registration POST otherwise; in particular a non-2xx
status outside 400..599 (such as 304) does not prevent the second call. -/
theorem claim_C8_second_call_gating (cfg : WebhookConfig) (store : Option WebhookConfig)
    (private_ip : String) (post : WebhookPayload → Nat) :
    ((invoke_webhooks (some cfg) store private_ip post).2 =
      if raiseForStatus (post (.first (firstWebhookData private_ip))) then
        [(cfg.url, .first (firstWebhookData private_ip))]
      else
        [(cfg.url, .first (firstWebhookData private_ip)),
         (cfg.url, .second (secondWebhookData cfg private_ip))]) ∧
    (raiseForStatus (post (.first (firstWebhookData private_ip))) = true →
      invoke_webhooks (some cfg) store private_ip post =
        (.httpFailure (post (.first (firstWebhookData private_ip))),
         [(cfg.url, .first (firstWebhookData private_ip))])) := by
  constructor
  · by_cases h1 : raiseForStatus (post (.first (firstWebhookData private_ip)))
    · simp [invoke_webhooks, h1]
    · by_cases h2 : raiseForStatus (post (.second (secondWebhookData cfg private_ip))) <;>
        simp [invoke_webhooks, h1, h2]
  · intro h1
    simp [invoke_webhooks, h1]

/-- Witness for the amended C8: a 500 first response fails the stage after
only the first call. -/
theorem claim_C8_second_call_gating_witness :
    invoke_webhooks (some { url := "http://wh.example", username := "user1", token := "tok1" })
        none "10.0.0.9" (fun _ => 500) =
      (.httpFailure 500,
       [("http://wh.example", .first (firstWebhookData "10.0.0.9"))]) := by
  have h := (claim_C8_second_call_gating
    { url := "http://wh.example", username := "user1", token := "tok1" }
    none "10.0.0.9" (fun _ => 500)).2 rfl
  exact h

/-! ## Helper lemmas about the prepare stage -/

lemma awsVarFalsy_instance_type (v : AwsVariables) :
    awsVarFalsy v "instance_type" = optStrFalsy v.instance_type := rfl

lemma awsVarFalsy_ami_id (v : AwsVariables) :
    awsVarFalsy v "ami_id" = optStrFalsy v.ami_id := rfl

lemma awsVarFalsy_subnet_id (v : AwsVariables) :
    awsVarFalsy v "subnet_id" = optStrFalsy v.subnet_id := rfl

lemma awsVarFalsy_sg_ids (v : AwsVariables) :
    awsVarFalsy v "security_group_ids" = v.security_group_ids.isEmpty := rfl

/-- The required-field filter of the prepare stage computes exactly the
spec-side absent-or-empty field list, read off the provider config. -/
lemma aws_filter_eq_omitted (rd : RequestData) (pc : ProviderConfig) :
    (aws_required.filter fun f => awsVarFalsy (deriveAwsVariables rd pc) f) =
      omittedOrEmptyAwsFields pc := by
  by_cases h1 : optStrFalsy pc.instance_type <;>
    by_cases h2 : optStrFalsy pc.ami_id <;>
      by_cases h3 : optStrFalsy pc.subnet_id <;>
        by_cases h4 : (pc.security_group_ids.getD []).isEmpty <;>
          simp [aws_required, List.filter_cons, awsVarFalsy_instance_type, awsVarFalsy_ami_id,
            awsVarFalsy_subnet_id, awsVarFalsy_sg_ids, deriveAwsVariables,
            omittedOrEmptyAwsFields, h1, h2, h3, h4]

/-! ## Claims about the prepare stage -/

/-- Counterexample to C2 as stated: an AWS request that supplies all four
required fields — with security_group_ids supplied as the explicit empty
list, so nothing is omitted — still fails, with the error naming
security_group_ids, because the check tests Python falsiness rather than
key absence. -/
theorem claim_C2_counterexample :
    (ProviderConfig.security_group_ids
        ⟨none, some "m5.large", some "ami-123", some "subnet-456", some [], none⟩ ≠ none) ∧
      prepare_terraform_vars
          ⟨some "aws", some ⟨none, some "m5.large", some "ami-123", some "subnet-456", some [], none⟩,
           none, none, none, none⟩ "fresh-0" =
        .error (.missingAwsFields ["security_group_ids"]) := by
  constructor
  · simp
  · rfl

/-- Claim C2 amended: for every AWS request, the prepare stage fails with
an error naming exactly the required fields among instance_type, ami_id,
subnet_id, security_group_ids whose supplied value is absent or empty
(Python-falsy) when there is any such field; when all four are present and
non-empty, prepare succeeds and the produced engine variables carry all
four fields non-empty. -/
theorem claim_C2_required_fields (pc : ProviderConfig) (pfx : Option String) (cnt : Option Nat)
    (rid : Option String) (whc : Option WebhookConfig) (freshId : String) :
    (omittedOrEmptyAwsFields pc = [] →
      ∃ res writes,
        prepare_terraform_vars ⟨some "aws", some pc, pfx, cnt, rid, whc⟩ freshId =
            .ok (res, writes) ∧
          optStrFalsy res.tf_vars.instance_type = false ∧
          optStrFalsy res.tf_vars.ami_id = false ∧
          optStrFalsy res.tf_vars.subnet_id = false ∧
          res.tf_vars.security_group_ids ≠ []) ∧
    (omittedOrEmptyAwsFields pc ≠ [] →
      prepare_terraform_vars ⟨some "aws", some pc, pfx, cnt, rid, whc⟩ freshId =
        .error (.missingAwsFields (omittedOrEmptyAwsFields pc))) := by
  have hfilter := aws_filter_eq_omitted ⟨some "aws", some pc, pfx, cnt, rid, whc⟩ pc
  constructor
  · intro h
    have hml : (aws_required.filter fun f =>
        awsVarFalsy (deriveAwsVariables ⟨some "aws", some pc, pfx, cnt, rid, whc⟩ pc) f) = [] := by
      rw [hfilter, h]
    have h1 : optStrFalsy pc.instance_type = false := by
      by_cases hh : optStrFalsy pc.instance_type
      · exfalso
        simp [omittedOrEmptyAwsFields, hh] at h
      · simpa using hh
    have h2 : optStrFalsy pc.ami_id = false := by
      by_cases hh : optStrFalsy pc.ami_id
      · exfalso
        simp [omittedOrEmptyAwsFields, hh] at h
      · simpa using hh
    have h3 : optStrFalsy pc.subnet_id = false := by
      by_cases hh : optStrFalsy pc.subnet_id
      · exfalso
        simp [omittedOrEmptyAwsFields, hh] at h
      · simpa using hh
    have h4 : (pc.security_group_ids.getD []).isEmpty = false := by
      by_cases hh : (pc.security_group_ids.getD []).isEmpty
      · exfalso
        simp [omittedOrEmptyAwsFields, hh] at h
      · simpa using hh
    refine ⟨{ cloud_provider := "aws", request_id := rid.getD freshId
              base_dir := "/opt/airflow/terraform/" ++ "aws"
              terraform_dir := "/opt/airflow/terraform/" ++ "aws"
              tf_vars := deriveAwsVariables ⟨some "aws", some pc, pfx, cnt, rid, whc⟩ pc
              webhook_config := whc },
            [VariableWrite.terraformVars ("terraform_vars_" ++ rid.getD freshId)
                (deriveAwsVariables ⟨some "aws", some pc, pfx, cnt, rid, whc⟩ pc)] ++
              (match whc with
               | some c => [VariableWrite.webhookCfg ("webhook_config_" ++ rid.getD freshId) c]
               | none => []),
            ?_, ?_, ?_, ?_, ?_⟩
    · have hie : (List.filter (fun f =>
          awsVarFalsy (deriveAwsVariables ⟨some "aws", some pc, pfx, cnt, rid, whc⟩ pc) f)
          aws_required).isEmpty = true := by simpa using hml
      simp [prepare_terraform_vars, hie]
      cases whc <;> rfl
    · simpa [deriveAwsVariables] using h1
    · simpa [deriveAwsVariables] using h2
    · simpa [deriveAwsVariables] using h3
    · simpa [deriveAwsVariables] using List.isEmpty_eq_false.mp h4
  · intro h
    have hml : (aws_required.filter fun f =>
        awsVarFalsy (deriveAwsVariables ⟨some "aws", some pc, pfx, cnt, rid, whc⟩ pc) f) ≠ [] := by
      rw [hfilter]
      exact h
    have hie : (List.filter (fun f =>
        awsVarFalsy (deriveAwsVariables ⟨some "aws", some pc, pfx, cnt, rid, whc⟩ pc) f)
        aws_required).isEmpty = false := by simpa using hml
    simp [prepare_terraform_vars, hie, hfilter]
    exact h

/-- Witness for the amended C2: a fully supplied config succeeds with all
four fields non-empty, and a config omitting ami_id fails naming it. -/
theorem claim_C2_required_fields_witness :
    (∃ res writes,
      prepare_terraform_vars
          ⟨some "aws",
           some ⟨some "us-west-2", some "m5.large", some "ami-123", some "subnet-456",
             some ["sg-1"], none⟩, none, none, none, none⟩ "fresh-1" =
          .ok (res, writes) ∧
        optStrFalsy res.tf_vars.instance_type = false ∧
        optStrFalsy res.tf_vars.ami_id = false ∧
        optStrFalsy res.tf_vars.subnet_id = false ∧
        res.tf_vars.security_group_ids ≠ []) ∧
    prepare_terraform_vars
        ⟨some "aws",
         some ⟨some "us-west-2", some "m5.large", none, some "subnet-456", some ["sg-1"], none⟩,
         none, none, none, none⟩ "fresh-1" =
      .error (.missingAwsFields ["ami_id"]) :=
  ⟨(claim_C2_required_fields
      ⟨some "us-west-2", some "m5.large", some "ami-123", some "subnet-456", some ["sg-1"], none⟩
      none none none none "fresh-1").1 rfl,
   by
    have h := (claim_C2_required_fields
      ⟨some "us-west-2", some "m5.large", none, some "subnet-456", some ["sg-1"], none⟩
      none none none none "fresh-1").2 (by decide)
    simpa using h⟩

/-- Claim C9: for every AWS request the prepare stage derives engine
variables with defaults region us-east-2, instance name prefix bare-metal,
count 1, security_group_ids empty list and tags empty map, and passes
supplied values through unchanged: the concrete request of the claim
yields exactly the stated engine variables. -/
theorem claim_C9_aws_defaults_passthrough (pc : ProviderConfig) (pfx : Option String)
    (cnt : Option Nat) (rid : Option String) (whc : Option WebhookConfig) :
    ((pc.region = none →
        (deriveAwsVariables ⟨some "aws", some pc, pfx, cnt, rid, whc⟩ pc).aws_region =
          "us-east-2") ∧
     (pfx = none →
        (deriveAwsVariables ⟨some "aws", some pc, pfx, cnt, rid, whc⟩ pc).instance_name_pref =
          "bare-metal") ∧
     (cnt = none →
        (deriveAwsVariables ⟨some "aws", some pc, pfx, cnt, rid, whc⟩ pc).instance_count = 1) ∧
     (pc.security_group_ids = none →
        (deriveAwsVariables ⟨some "aws", some pc, pfx, cnt, rid, whc⟩ pc).security_group_ids =
          []) ∧
     (pc.tags = none →
        (deriveAwsVariables ⟨some "aws", some pc, pfx, cnt, rid, whc⟩ pc).tags = [])) ∧
    prepare_terraform_vars
        ⟨some "aws",
         some ⟨some "us-west-2", some "m5.large", some "ami-123", some "subnet-456",
           some ["sg-1"], none⟩, some "web", some 2, none, none⟩ "rid-1" =
      .ok ({ cloud_provider := "aws", request_id := "rid-1"
             base_dir := "/opt/airflow/terraform/aws"
             terraform_dir := "/opt/airflow/terraform/aws"
             tf_vars := { aws_region := "us-west-2", instance_name_pref := "web"
                          instance_count := 2, instance_type := some "m5.large"
                          ami_id := some "ami-123", subnet_id := some "subnet-456"
                          security_group_ids := ["sg-1"], tags := [] }
             webhook_config := none },
           [VariableWrite.terraformVars "terraform_vars_rid-1"
             { aws_region := "us-west-2", instance_name_pref := "web"
               instance_count := 2, instance_type := some "m5.large"
               ami_id := some "ami-123", subnet_id := some "subnet-456"
               security_group_ids := ["sg-1"], tags := [] }]) := by
  refine ⟨⟨?_, ?_, ?_, ?_, ?_⟩, ?_⟩
  · intro hd
    simp [deriveAwsVariables, hd]
  · intro hd
    simp [deriveAwsVariables, hd]
  · intro hd
    simp [deriveAwsVariables, hd]
  · intro hd
    simp [deriveAwsVariables, hd]
  · intro hd
    simp [deriveAwsVariables, hd]
  · rfl

/-- Witness for C9 at the all-defaults configuration. -/
theorem claim_C9_aws_defaults_passthrough_witness :
    (deriveAwsVariables
        ⟨some "aws", some ⟨none, none, none, none, none, none⟩, none, none, none, none⟩
        ⟨none, none, none, none, none, none⟩).aws_region = "us-east-2" ∧
    (deriveAwsVariables
        ⟨some "aws", some ⟨none, none, none, none, none, none⟩, none, none, none, none⟩
        ⟨none, none, none, none, none, none⟩).instance_name_pref = "bare-metal" ∧
    (deriveAwsVariables
        ⟨some "aws", some ⟨none, none, none, none, none, none⟩, none, none, none, none⟩
        ⟨none, none, none, none, none, none⟩).instance_count = 1 ∧
    (deriveAwsVariables
        ⟨some "aws", some ⟨none, none, none, none, none, none⟩, none, none, none, none⟩
        ⟨none, none, none, none, none, none⟩).security_group_ids = [] ∧
    (deriveAwsVariables
        ⟨some "aws", some ⟨none, none, none, none, none, none⟩, none, none, none, none⟩
        ⟨none, none, none, none, none, none⟩).tags = [] := by
  have h := claim_C9_aws_defaults_passthrough
    ⟨none, none, none, none, none, none⟩ none none none none
  exact ⟨h.1.1 rfl, h.1.2.1 rfl, h.1.2.2.1 rfl, h.1.2.2.2.1 rfl, h.1.2.2.2.2 rfl⟩

/-! ## Claims about the API facade -/

/-- Claim C5: the configuration POST /provision hands to the workflow
engine has exactly the keys cloud_provider, provider_config,
instance_name_prefix and count — never request_id or webhook_config — so
whenever the prepare stage succeeds on it, the run's request id is the
freshly generated uuid (distinct from the request_id the API returned to
the caller, which is a different uuid), no webhook configuration is handed
off or durably stored, and the notification stage takes its skip path
without issuing any call. -/
theorem claim_C5_api_run_fresh_id_and_skip (r : BareMetalRequest) (apiId freshId : String)
    (private_ip : String) (post : WebhookPayload → Nat)
    (res : PrepareResult) (writes : List VariableWrite)
    (hfresh : freshId ≠ apiId)
    (hok : prepare_terraform_vars (trigger_dag_conf r) freshId = .ok (res, writes)) :
    dag_conf_keys = ["cloud_provider", "provider_config", "instance_name_prefix", "count"] ∧
    dag_conf_keys.contains "request_id" = false ∧
    dag_conf_keys.contains "webhook_config" = false ∧
    (trigger_dag_conf r).request_id = none ∧
    (trigger_dag_conf r).webhook_config = none ∧
    res.request_id = freshId ∧
    res.request_id ≠ apiId ∧
    res.webhook_config = none ∧
    (∀ k c, VariableWrite.webhookCfg k c ∉ writes) ∧
    invoke_webhooks res.webhook_config none private_ip post =
      (.skipped "No webhook configuration provided", []) := by
  by_cases hcp : r.cloud_provider = "aws"
  · simp only [prepare_terraform_vars, trigger_dag_conf] at hok
    rw [if_pos hcp] at hok
    split at hok
    · injection hok with hpair
      injection hpair with hres hwrites
      subst hres
      subst hwrites
      refine ⟨rfl, rfl, rfl, rfl, rfl, rfl, by simpa using hfresh, rfl, ?_, rfl⟩
      intro k c
      simp
    · exact absurd hok (by simp)
  · simp only [prepare_terraform_vars, trigger_dag_conf] at hok
    rw [if_neg hcp] at hok
    exact absurd hok (by simp)

/-- Witness for C5 on a concrete API request: the run's request id is the
generated uuid, not the API's, and the notification stage skips. -/
theorem claim_C5_api_run_fresh_id_and_skip_witness :
    ({ cloud_provider := "aws", request_id := "f-1"
       base_dir := "/opt/airflow/terraform/aws"
       terraform_dir := "/opt/airflow/terraform/aws"
       tf_vars := { aws_region := "us-west-2", instance_name_pref := "web"
                    instance_count := 2, instance_type := some "m5.large"
                    ami_id := some "ami-123", subnet_id := some "subnet-456"
                    security_group_ids := ["sg-1"], tags := [] }
       webhook_config := none } : PrepareResult).request_id ≠ "a-1" ∧
    invoke_webhooks
        ({ cloud_provider := "aws", request_id := "f-1"
           base_dir := "/opt/airflow/terraform/aws"
           terraform_dir := "/opt/airflow/terraform/aws"
           tf_vars := { aws_region := "us-west-2", instance_name_pref := "web"
                        instance_count := 2, instance_type := some "m5.large"
                        ami_id := some "ami-123", subnet_id := some "subnet-456"
                        security_group_ids := ["sg-1"], tags := [] }
           webhook_config := none } : PrepareResult).webhook_config
        none "10.0.0.1" (fun _ => 200) =
      (.skipped "No webhook configuration provided", []) := by
  have h := claim_C5_api_run_fresh_id_and_skip
    { cloud_provider := "aws"
      provider_config := { region := "us-west-2", instance_type := "m5.large", tags := []
                           subnet_id := "subnet-456", security_group_ids := ["sg-1"]
                           ami_id := "ami-123" }
      instance_name_pref := "web", count := 2 }
    "a-1" "f-1" "10.0.0.1" (fun _ => 200)
    { cloud_provider := "aws", request_id := "f-1"
      base_dir := "/opt/airflow/terraform/aws"
      terraform_dir := "/opt/airflow/terraform/aws"
      tf_vars := { aws_region := "us-west-2", instance_name_pref := "web"
                   instance_count := 2, instance_type := some "m5.large"
                   ami_id := some "ami-123", subnet_id := some "subnet-456"
                   security_group_ids := ["sg-1"], tags := [] }
      webhook_config := none }
    [VariableWrite.terraformVars "terraform_vars_f-1"
      { aws_region := "us-west-2", instance_name_pref := "web"
        instance_count := 2, instance_type := some "m5.large"
        ami_id := some "ami-123", subnet_id := some "subnet-456"
        security_group_ids := ["sg-1"], tags := [] }]
    (by decide) rfl
  exact ⟨h.2.2.2.2.2.2.1, h.2.2.2.2.2.2.2.2.2⟩

/-- Claim C6: every ProvisioningResponse the three handlers build has
instances = none, because they pass instance data under the keyword
instance_details, which is not among the model's declared fields and is
ignored by construction. -/
theorem claim_C6_instances_never_populated :
    provisioningResponseFields.contains "instance_details" = false ∧
    (∀ rid drid, (create_provisioning_request_response rid drid).instances = none) ∧
    (∀ stored rid q, (get_provisioning_status stored rid q).2.instances = none) ∧
    (∀ reqs, (list_provisioning_requests reqs).map (fun resp => resp.instances) =
      reqs.map fun _ => none) := by
  refine ⟨rfl, fun rid drid => rfl, fun stored rid q => rfl, ?_⟩
  intro reqs
  induction reqs with
  | nil => rfl
  | cons a t ih =>
    simp only [list_provisioning_requests, List.map_cons] at ih ⊢
    exact congrArg (List.cons none) ih

/-- Witness for C6 at concrete handler inputs. -/
theorem claim_C6_instances_never_populated_witness :
    (create_provisioning_request_response "req-1" "run-1").instances = none ∧
    (get_provisioning_status { status := .pendingS, message := "m", instance_details := none }
        "req-1" (.ok { state := "success", outputs := some "out" })).2.instances = none ∧
    (list_provisioning_requests
        [("req-1", { status := .pendingS, message := "m", instance_details := none })]).map
      (fun resp => resp.instances) = [none] :=
  ⟨claim_C6_instances_never_populated.2.1 "req-1" "run-1",
   claim_C6_instances_never_populated.2.2.1
     { status := .pendingS, message := "m", instance_details := none } "req-1"
     (.ok { state := "success", outputs := some "out" }),
   claim_C6_instances_never_populated.2.2.2
     [("req-1", { status := .pendingS, message := "m", instance_details := none })]⟩

/-! ## Claim about the status projection -/

lemma get_provisioning_status_status (stored : StoredRequest) (rid : String)
    (q : Except String DagRunStatus) :
    (get_provisioning_status stored rid q).2.status = (updateFromDagRun stored q).status := rfl

lemma get_provisioning_status_message (stored : StoredRequest) (rid : String)
    (q : Except String DagRunStatus) :
    (get_provisioning_status stored rid q).2.message = (updateFromDagRun stored q).message := rfl

/-- Claim C10: for a known request id, the status handler maps the
runner's run state success to completed, failed to failed and
running/queued to in_progress, each with the corresponding message; any
other run state, and a failure to query the runner, leave the previously
stored status unchanged. -/
theorem claim_C10_status_projection (stored : StoredRequest) (rid : String)
    (q : Except String DagRunStatus) :
    (∀ st, q = .ok st → st.state = "success" →
      (get_provisioning_status stored rid q).2.status = .completed ∧
        (get_provisioning_status stored rid q).2.message =
          "Instance provisioning completed successfully") ∧
    (∀ st, q = .ok st → st.state = "failed" →
      (get_provisioning_status stored rid q).2.status = .failed ∧
        (get_provisioning_status stored rid q).2.message = "Instance provisioning failed") ∧
    (∀ st, q = .ok st → (st.state = "running" ∨ st.state = "queued") →
      (get_provisioning_status stored rid q).2.status = .in_progress ∧
        (get_provisioning_status stored rid q).2.message =
          "Instance provisioning in progress") ∧
    (∀ st, q = .ok st → st.state ≠ "success" → st.state ≠ "failed" →
      st.state ≠ "running" → st.state ≠ "queued" →
      (get_provisioning_status stored rid q).2.status = stored.status) ∧
    (∀ e, q = .error e →
      (get_provisioning_status stored rid q).2.status = stored.status) := by
  refine ⟨?_, ?_, ?_, ?_, ?_⟩
  · intro st hq hst
    subst hq
    obtain ⟨sts, souts⟩ := st
    simp only at hst
    rw [get_provisioning_status_status, get_provisioning_status_message]
    cases souts <;> simp [updateFromDagRun, hst]
  · intro st hq hst
    subst hq
    obtain ⟨sts, souts⟩ := st
    simp only at hst
    rw [get_provisioning_status_status, get_provisioning_status_message]
    cases souts <;> simp [updateFromDagRun, hst]
  · intro st hq hst
    subst hq
    obtain ⟨sts, souts⟩ := st
    simp only at hst
    rw [get_provisioning_status_status, get_provisioning_status_message]
    rcases hst with hst | hst <;> cases souts <;> simp [updateFromDagRun, hst]
  · intro st hq h1 h2 h3 h4
    subst hq
    obtain ⟨sts, souts⟩ := st
    simp only at h1 h2 h3 h4
    rw [get_provisioning_status_status]
    cases souts <;> simp [updateFromDagRun, h1, h2, h3, h4]
  · intro e hq
    subst hq
    rw [get_provisioning_status_status]
    simp [updateFromDagRun]

/-- Witness for C10: a success run state yields completed; an unknown run
state and a failed runner query leave the stored status untouched. -/
theorem claim_C10_status_projection_witness :
    (get_provisioning_status { status := .in_progress, message := "m", instance_details := none }
        "req-1" (.ok { state := "success", outputs := none })).2.status = .completed ∧
    (get_provisioning_status { status := .in_progress, message := "m", instance_details := none }
        "req-1" (.ok { state := "up_for_retry", outputs := none })).2.status = .in_progress ∧
    (get_provisioning_status { status := .in_progress, message := "m", instance_details := none }
        "req-1" (.error "connection refused")).2.status = .in_progress :=
  ⟨((claim_C10_status_projection
      { status := .in_progress, message := "m", instance_details := none } "req-1"
      (.ok { state := "success", outputs := none })).1
      { state := "success", outputs := none } rfl rfl).1,
   (claim_C10_status_projection
      { status := .in_progress, message := "m", instance_details := none } "req-1"
      (.ok { state := "up_for_retry", outputs := none })).2.2.2.1
      { state := "up_for_retry", outputs := none } rfl
      (by decide) (by decide) (by decide) (by decide),
   (claim_C10_status_projection
      { status := .in_progress, message := "m", instance_details := none } "req-1"
      (.error "connection refused")).2.2.2.2 "connection refused" rfl⟩
